import Mathlib

/-!
Shallow embedding of `kube_downscaler/scaler.py` (the downscale decision
engine of kube-downscaler) and proofs about its decision functions.

Modelling conventions:
* Kubernetes annotation maps are `String → Option String`; a key mapped to
  `none` is absent.  The Python code clears an entry by assigning the value
  `None`; since the only reads the code performs on such keys use
  `dict.get(k)` with no default, assigning `None` is observationally the
  same as deleting the key, and we model it by mapping the key to `none`.
* Python values that can be either a `bool` or a `str` (the forced-uptime
  flag coming from a namespace object; the cron suspend flag) are modelled
  by `PyBS`.  Python truthiness and Python `==` on such values are
  `PyBS.truthy` and `PyBS.pyEq`.
* Python `int(s)` on a string is modelled by `py_int` (an optional sign
  followed by one or more decimal digits); `none` means the call raises
  `ValueError`.  Python additionally strips surrounding whitespace and
  allows digit-group underscores; every concrete input used below is a
  plain decimal literal, on which the two semantics agree.
* Python `s.lower()` is modelled character-wise (`py_lower`), which agrees
  with it on ASCII, and all annotation values of interest are ASCII.
* Timestamps are seconds since the epoch (`Int`).  `datetime` subtraction
  followed by `total_seconds()` becomes `Int` subtraction.
* The time-window matcher `helper.matches_time_spec(now, spec)` is external
  to this file (per the spec it is an opaque predicate); with `now` fixed it
  is passed to every function as an argument `mts : String → Bool`.
* Each decision function returns the (possibly mutated) in-memory resource,
  an `updateNeeded` flag (the local variable of the same name in the code),
  a `failed` flag (true when the body raised and the exception was caught by
  the per-resource handler), and an `Action` tag recording which transition
  branch ran (mirroring the log statements of the code).
-/

namespace KubeDownscaler

/-- scaler.py line 11. (Source constant name ends in ...ANNOTATION; the
`KEY` suffix used here is only a renaming, the string value is verbatim.) -/
def ORIGINAL_REPLICAS_KEY : String := "downscaler/original-replicas"

/-- scaler.py line 12. -/
def ORIGINAL_CRON_SUSPEND_KEY : String := "downscaler/original-cron-status"

/-- scaler.py line 13. -/
def DOWNTIME_CRON_SUSPEND_KEY : String := "downscaler/downtime-cron-status"

/-- scaler.py line 14. -/
def FORCE_UPTIME_KEY : String := "downscaler/force-uptime"

/-- scaler.py line 15. -/
def UPSCALE_PERIOD_KEY : String := "downscaler/upscale-period"

/-- scaler.py line 16. -/
def DOWNSCALE_PERIOD_KEY : String := "downscaler/downscale-period"

/-- scaler.py line 17. -/
def EXCLUDE_KEY : String := "downscaler/exclude"

/-- scaler.py line 18. -/
def UPTIME_KEY : String := "downscaler/uptime"

/-- scaler.py line 19. -/
def DOWNTIME_KEY : String := "downscaler/downtime"

/-- scaler.py line 20. -/
def DOWNTIME_REPLICAS_KEY : String := "downscaler/downtime-replicas"

/-- scaler.py line 21: `DOWNTIME_CRON_SUSPEND = True`. -/
def DOWNTIME_CRON_SUSPEND : Bool := true

/-- scaler.py line 22: `UPTIME_CRON_SUSPEND = False`. -/
def UPTIME_CRON_SUSPEND : Bool := false

/-- A Python value that is either a `bool` or a `str`. -/
inductive PyBS where
  | b (v : Bool)
  | s (v : String)
deriving DecidableEq

/-- Python truthiness of a `PyBS`: `False` and the empty string are falsy. -/
def PyBS.truthy : PyBS → Bool
  | .b v => v
  | .s v => v != ""

/-- Python `==` between two bool-or-str values: `bool == str` is `False`
(Python does not coerce here; `True == "True"` is `False`). -/
def PyBS.pyEq : PyBS → PyBS → Bool
  | .b x, .b y => x == y
  | .s x, .s y => x == y
  | _, _ => false

/-- An annotation map; `none` = key absent. -/
abbrev AnnMap := String → Option String

/-- Python `d.get(k)` (no default). -/
def annGet (a : AnnMap) (k : String) : Option String := a k

/-- Python `d.get(k, default)` with a string default. -/
def annGetD (a : AnnMap) (k d : String) : String := (a k).getD d

/-- Python `d[k] = v` (with `v = none` for an assignment of `None`,
observationally a deletion, see the header comment). -/
def annSet (a : AnnMap) (k : String) (v : Option String) : AnnMap :=
  fun k2 => if k2 = k then v else a k2

/-- Python truthiness of an optional string (`None` and `""` are falsy). -/
def strTruthy : Option String → Bool
  | none => false
  | some s => s != ""

/-- Python `s.lower()`, modelled character-wise; agrees with it on ASCII
strings, which covers every annotation value the code compares. -/
def py_lower (s : String) : String := ⟨s.data.map Char.toLower⟩

/-- Accumulate decimal digits; any non-digit character fails. -/
def parse_decimal : List Char → Nat → Option Nat
  | [], acc => some acc
  | c :: cs, acc =>
    if c.isDigit then parse_decimal cs (acc * 10 + (c.toNat - 48))
    else none

/-- Python `int(s)` on a string; `none` models a `ValueError`.  Accepts an
optional sign followed by at least one decimal digit (see the header
comment for the scope of this model). -/
def py_int (s : String) : Option Int :=
  match s.data with
  | [] => none
  | c :: cs =>
    if c = '-' then
      match cs with
      | [] => none
      | _ => (parse_decimal cs 0).map (fun n => -(n : Int))
    else if c = '+' then
      match cs with
      | [] => none
      | _ => (parse_decimal cs 0).map (fun n => (n : Int))
    else (parse_decimal (c :: cs) 0).map (fun n => (n : Int))

/-- Python `int(d.get(k, default))` where the default is already an `int`:
absent key → the integer default, present key → parse the string value. -/
def int_or_default (v : Option String) (d : Int) : Option Int :=
  match v with
  | none => some d
  | some s => py_int s

/-- Python `x == False` where `x` is `None` or a `str`: always `False`
(`None == False` is `False`; a `str` never equals a `bool`). This is the
`original_status == False` test on scaler.py line 215. -/
def py_eq_false : Option String → Bool
  | none => false
  | some _ => false

/-- One Kubernetes workload object, with the fields scaler.py reads:
identity, owner references (apiVersion, kind pairs), the annotation map,
the replica count (replica-based kinds), the `spec.suspend` flag (cron
jobs; a `PyBS` because the code can write an annotation string into it),
and the parsed creation timestamp in epoch seconds. -/
structure KubeResource where
  kind : String
  apiVersion : String
  namesp : String
  name : String
  ownerReferences : List (String × String)
  annotations : AnnMap
  replicas : Int
  suspend : PyBS
  creationTimestamp : Int

/-- A namespace object; only its annotation map is read (lines 156-165). -/
structure NamespaceObj where
  annotations : AnnMap

/-- Deployment kind as exposed by pykube. -/
def DeploymentKind : String := "Deployment"

/-- Deployment apiVersion as exposed by pykube. -/
def DeploymentVersion : String := "apps/v1"

/-- Modelled from the spec: the platform-specific aggregate kind (Stack) of
`kube_downscaler.resources.stack`, whose file is not under src/; only the
kind and apiVersion strings matter and no claim depends on their exact
values. -/
def StackKind : String := "Stack"

/-- Modelled from the spec: apiVersion of the Stack aggregate kind (see
`StackKind`). -/
def StackVersion : String := "zalando.org/v1"

/-- scaler.py lines 42-47: a Deployment owned by a Stack. -/
def is_stack_deployment (r : KubeResource) : Bool :=
  r.kind == DeploymentKind && r.apiVersion == DeploymentVersion &&
    r.ownerReferences.any (fun o => o.1 == StackVersion && o.2 == StackKind)

/-- scaler.py lines 50-56: stack-owned, or an exclude annotation whose
lower-cased value differs from "false". -/
def ignore_resource (r : KubeResource) : Bool :=
  is_stack_deployment r ||
    py_lower (annGetD r.annotations EXCLUDE_KEY "false") != "false"

/-- scaler.py lines 25-28: the resource age is at most the grace period. -/
def within_grace_period (r : KubeResource) (grace_period now : Int) : Bool :=
  decide (now - r.creationTimestamp ≤ grace_period)

/-- Which transition branch of a decision function ran. -/
inductive Action where
  | noop
  | restore
  | downscale
deriving DecidableEq

/-- Result of one decision-function call: the in-memory resource after the
call, the `update_needed` local, whether the per-resource exception handler
caught a raise, and the branch tag. -/
structure ScaleResult where
  resource : KubeResource
  updateNeeded : Bool
  failed : Bool
  action : Action

/-- scaler.py lines 121-125: `resource.update()` runs iff `update_needed`
and not `dry_run`. -/
def ScaleResult.committed (res : ScaleResult) (dry_run : Bool) : Bool :=
  res.updateNeeded && !dry_run

/-- scaler.py lines 75-95 (and the identical lines 189-209): resolve
`(ignore, is_uptime)` from the forced flag (line 75 condition, already
evaluated by the caller), the effective period strings and the effective
uptime/downtime specs.  When the code leaves `is_uptime` unassigned it is
also never read (every later read is guarded by `not ignore`); we return
`false` for it in those branches. -/
def resolve_mode (mts : String → Bool) (forcedOrExcludedOrig : Bool)
    (up down ut dt : String) : Bool × Bool :=
  if forcedOrExcludedOrig then
    (false, true)
  else if up != "never" || down != "never" then
    if mts up && mts down then (true, false)
    else if mts up then (false, true)
    else if mts down then (false, false)
    else (true, false)
  else
    (false, mts ut && !(mts dt))

/-- scaler.py lines 59-127, `autoscale_resource`, as a pure function.
`mts` is `helper.matches_time_spec` with `now` fixed.  `dry_run` only
gates the final `update()` call and is modelled by `ScaleResult.committed`.
Line 64 reads ORIGINAL_CRON_SUSPEND (sic, the cron-status key) into the
variable `original_replicas`; the embedding reproduces that read verbatim. -/
def autoscale_resource (mts : String → Bool) (r : KubeResource)
    (upscale_period downscale_period default_uptime default_downtime : String)
    (forced_uptime : PyBS) (now grace_period : Int)
    (downtime_replicas_arg : Int) (namespace_excluded : Bool) : ScaleResult :=
  let exclude := namespace_excluded || ignore_resource r
  let original_replicas := annGet r.annotations ORIGINAL_CRON_SUSPEND_KEY
  match int_or_default (annGet r.annotations DOWNTIME_REPLICAS_KEY)
      downtime_replicas_arg with
  | none => ⟨r, false, true, .noop⟩
  | some downtime_replicas =>
    if exclude && !strTruthy original_replicas then
      ⟨r, false, false, .noop⟩
    else
      let replicas := r.replicas
      let up := annGetD r.annotations UPSCALE_PERIOD_KEY upscale_period
      let down := annGetD r.annotations DOWNSCALE_PERIOD_KEY downscale_period
      let ut := annGetD r.annotations UPTIME_KEY default_uptime
      let dt := annGetD r.annotations DOWNTIME_KEY default_downtime
      let m := resolve_mode mts
        (forced_uptime.truthy || (exclude && strTruthy original_replicas))
        up down ut dt
      let ignore := m.1
      let is_uptime := m.2
      -- scaler.py lines 108-120 (the elif branch), reached whenever the
      -- full line-101 condition is false
      let downscale_branch : ScaleResult :=
        if !ignore && !is_uptime && replicas > 0 &&
            replicas > downtime_replicas then
          -- line 109 recomputes the line-65 expression on the unchanged
          -- annotation map, so target_replicas = downtime_replicas
          let target_replicas := downtime_replicas
          if within_grace_period r grace_period now then
            ⟨r, false, false, .noop⟩
          else
            ⟨{ r with
                 annotations := annSet r.annotations ORIGINAL_REPLICAS_KEY
                   (some (toString replicas)),
                 replicas := target_replicas },
              true, false, .downscale⟩
        else ⟨r, false, false, .noop⟩
      if !ignore && is_uptime && replicas == downtime_replicas &&
          strTruthy original_replicas then
        -- line 101 tail: `int(original_replicas) > 0`; the int() call can
        -- raise, which the line-126 handler catches
        match original_replicas.bind py_int with
        | none => ⟨r, false, true, .noop⟩
        | some orig =>
          if orig > 0 then
            ⟨{ r with
                 replicas := orig,
                 annotations := annSet r.annotations ORIGINAL_REPLICAS_KEY
                   none },
              true, false, .restore⟩
          else downscale_branch
      else downscale_branch

/-- scaler.py lines 171-241, `auto_suspend_cronjob`, as a pure function.
Line 176 reads the original-status annotation; line 177 gives the downtime
suspend value, a `bool` default or an annotation `str`.  Line 215 tests
`original_status and original_status == False` (embedded via
`py_eq_false`).  Line 231 stores `original_status` (not the current
`status`) into the original-status annotation; the embedding reproduces
that verbatim. -/
def auto_suspend_cronjob (mts : String → Bool) (r : KubeResource)
    (upscale_period downscale_period default_uptime default_downtime : String)
    (forced_uptime : PyBS) (now grace_period : Int)
    (namespace_excluded : Bool) : ScaleResult :=
  let exclude := namespace_excluded || ignore_resource r
  let original_status := annGet r.annotations ORIGINAL_CRON_SUSPEND_KEY
  let downtime_status : PyBS :=
    match annGet r.annotations DOWNTIME_CRON_SUSPEND_KEY with
    | none => .b DOWNTIME_CRON_SUSPEND
    | some s => .s s
  if exclude && !strTruthy original_status then
    ⟨r, false, false, .noop⟩
  else
    let status := r.suspend
    let up := annGetD r.annotations UPSCALE_PERIOD_KEY upscale_period
    let down := annGetD r.annotations DOWNSCALE_PERIOD_KEY downscale_period
    let ut := annGetD r.annotations UPTIME_KEY default_uptime
    let dt := annGetD r.annotations DOWNTIME_KEY default_downtime
    let m := resolve_mode mts
      (forced_uptime.truthy || (exclude && strTruthy original_status))
      up down ut dt
    let ignore := m.1
    let is_uptime := m.2
    if !ignore && is_uptime && status.pyEq downtime_status &&
        strTruthy original_status && py_eq_false original_status then
      -- lines 216-221; the branch guard is unsatisfiable (see
      -- `py_eq_false`), so the assignment of the string
      -- `original_status` into `spec.suspend` is dead code; the `.b false`
      -- fallback below is unreachable
      ⟨{ r with
           suspend := match original_status with
             | some v => .s v
             | none => .b false,
           annotations := annSet r.annotations ORIGINAL_CRON_SUSPEND_KEY
             none },
        true, false, .restore⟩
    else if !ignore && !is_uptime && status.pyEq (.b false) &&
        !(status.pyEq downtime_status) then
      -- line 223 recomputes the line-177 expression on the unchanged
      -- annotation map, so target_status = downtime_status
      let target_status := downtime_status
      if within_grace_period r grace_period now then
        ⟨r, false, false, .noop⟩
      else
        ⟨{ r with
             annotations := annSet r.annotations ORIGINAL_CRON_SUSPEND_KEY
               original_status,
             suspend := target_status },
          true, false, .downscale⟩
    else ⟨r, false, false, .noop⟩

/-- Result of one reconciliation pass over a list of resources: the
results of the resources that were actually handed to the decision
function (resources skipped by the static name/namespace exclusion filter
contribute nothing), and whether an uncaught exception aborted the pass. -/
structure PassResult where
  processed : List ScaleResult
  aborted : Bool

/-- scaler.py line 165 (and the identical line 262):
`namespace_obj.annotations.get(FORCE_UPTIME_ANNOTATION, forced_uptime)` —
the raw annotation string when present (no comparison against "true" or
"false"), else the boolean passed by the caller. -/
def forced_uptime_for_namespace (nsObj : NamespaceObj)
    (forced_uptime : Bool) : PyBS :=
  match annGet nsObj.annotations FORCE_UPTIME_KEY with
  | none => .b forced_uptime
  | some s => .s s

/-- scaler.py lines 145-169, `autoscale_resources`: iterate resources
(each paired with its namespace object, standing for the
`get_by_name(resource.namespace)` lookup), skip those matching the static
exclusion sets, resolve the namespace-level overrides, and call
`autoscale_resource`.  The `int(...)` on the namespace-level
downtime-replicas annotation (line 162) runs outside any try/except: when
it raises, the exception propagates and the rest of the pass is lost
(`aborted = true`, remaining resources unprocessed). -/
def autoscale_resources (mts : String → Bool)
    (items : List (KubeResource × NamespaceObj))
    (exclude_namespaces exclude_names : List String)
    (upscale_period downscale_period default_uptime default_downtime : String)
    (forced_uptime : Bool) (now grace_period : Int)
    (downtime_replicas : Int) : PassResult :=
  match items with
  | [] => ⟨[], false⟩
  | (r, nsObj) :: rest =>
    if exclude_namespaces.contains r.namesp || exclude_names.contains r.name
    then
      autoscale_resources mts rest exclude_namespaces exclude_names
        upscale_period downscale_period default_uptime default_downtime
        forced_uptime now grace_period downtime_replicas
    else
      let excluded :=
        py_lower (annGetD nsObj.annotations EXCLUDE_KEY "false") != "false"
      let ns_ut := annGetD nsObj.annotations UPTIME_KEY default_uptime
      let ns_dt := annGetD nsObj.annotations DOWNTIME_KEY default_downtime
      match int_or_default (annGet nsObj.annotations DOWNTIME_REPLICAS_KEY)
          downtime_replicas with
      | none => ⟨[], true⟩
      | some ns_downtime_replicas =>
        let ns_up := annGetD nsObj.annotations UPSCALE_PERIOD_KEY
          upscale_period
        let ns_down := annGetD nsObj.annotations DOWNSCALE_PERIOD_KEY
          downscale_period
        let ns_forced := forced_uptime_for_namespace nsObj forced_uptime
        let res := autoscale_resource mts r ns_up ns_down ns_ut ns_dt
          ns_forced now grace_period ns_downtime_replicas excluded
        let restRes := autoscale_resources mts rest exclude_namespaces
          exclude_names upscale_period downscale_period default_uptime
          default_downtime forced_uptime now grace_period downtime_replicas
        ⟨res :: restRes.processed, restRes.aborted⟩

/-- scaler.py lines 243-266, `auto_suspend_cronjobs`: same driver loop for
cron jobs.  Its namespace-override block performs no `int(...)`
conversion, so nothing in the loop body can raise. -/
def auto_suspend_cronjobs (mts : String → Bool)
    (items : List (KubeResource × NamespaceObj))
    (exclude_namespaces exclude_names : List String)
    (upscale_period downscale_period default_uptime default_downtime : String)
    (forced_uptime : Bool) (now grace_period : Int) : PassResult :=
  match items with
  | [] => ⟨[], false⟩
  | (r, nsObj) :: rest =>
    if exclude_namespaces.contains r.namesp || exclude_names.contains r.name
    then
      auto_suspend_cronjobs mts rest exclude_namespaces exclude_names
        upscale_period downscale_period default_uptime default_downtime
        forced_uptime now grace_period
    else
      let excluded :=
        py_lower (annGetD nsObj.annotations EXCLUDE_KEY "false") != "false"
      let ns_ut := annGetD nsObj.annotations UPTIME_KEY default_uptime
      let ns_dt := annGetD nsObj.annotations DOWNTIME_KEY default_downtime
      let ns_up := annGetD nsObj.annotations UPSCALE_PERIOD_KEY upscale_period
      let ns_down := annGetD nsObj.annotations DOWNSCALE_PERIOD_KEY
        downscale_period
      let ns_forced := forced_uptime_for_namespace nsObj forced_uptime
      let res := auto_suspend_cronjob mts r ns_up ns_down ns_ut ns_dt
        ns_forced now grace_period excluded
      let restRes := auto_suspend_cronjobs mts rest exclude_namespaces
        exclude_names upscale_period downscale_period default_uptime
        default_downtime forced_uptime now grace_period
      ⟨res :: restRes.processed, restRes.aborted⟩

/-- One pod, with the fields `pods_force_uptime` reads: the
`status.phase` chain (`none` when absent) and the annotation map. -/
structure Pod where
  phase : Option String
  annotations : AnnMap

/-- scaler.py lines 31-39: scan the pods, skipping terminal phases, and
return true at the first pod whose force-uptime annotation lower-cases to
"true". -/
def pods_force_uptime : List Pod → Bool
  | [] => false
  | p :: rest =>
    if p.phase == some "Succeeded" || p.phase == some "Failed" then
      pods_force_uptime rest
    else if py_lower (annGetD p.annotations FORCE_UPTIME_KEY "") == "true" then
      true
    else
      pods_force_uptime rest

/-! ### Concrete fixtures used by the closed theorems below -/

/-- A time-window matcher for concrete scenarios: exactly the spec string
"always" matches `now`. -/
def mtsUp : String → Bool := fun sp => sp == "always"

/-- The empty annotation map. -/
def emptyAnn : AnnMap := fun _ => none

/-- A plain deployment: no annotations, no owner references, 0 replicas,
created at epoch second 0. -/
def plainDeployment : KubeResource where
  kind := "Deployment"
  apiVersion := "apps/v1"
  namesp := "default"
  name := "app"
  ownerReferences := []
  annotations := emptyAnn
  replicas := 0
  suspend := .b false
  creationTimestamp := 0

/-- A deployment carrying only the original-replicas annotation "5", at 0
replicas (the state the engine itself leaves behind after downscaling to
0). -/
def rRestoreDue : KubeResource :=
  { plainDeployment with annotations :=
      fun k => if k = ORIGINAL_REPLICAS_KEY then some "5" else none }

/-- A deployment at 1 replica carrying only the original-cron-status
annotation "1". -/
def rCronOrigOne : KubeResource :=
  { plainDeployment with
      replicas := 1,
      annotations :=
        fun k => if k = ORIGINAL_CRON_SUSPEND_KEY then some "1" else none }

/-- An unsuspended cron job with no annotations. -/
def rPlainCron : KubeResource :=
  { plainDeployment with kind := "CronJob", suspend := .b false }

/-- A deployment excluded by its exclude annotation, carrying an
original-cron-status annotation but no original-replicas annotation. -/
def rExcludedCronOrig : KubeResource :=
  { plainDeployment with annotations :=
      fun k => if k = EXCLUDE_KEY then some "true"
        else if k = ORIGINAL_CRON_SUSPEND_KEY then some "5" else none }

/-- A deployment whose own downtime-replicas annotation is not an integer
literal. -/
def rBadReplicasAnn : KubeResource :=
  { plainDeployment with annotations :=
      fun k => if k = DOWNTIME_REPLICAS_KEY then some "oops" else none }

/-- A namespace object whose downtime-replicas annotation is not an
integer literal. -/
def nsBadObj : NamespaceObj :=
  ⟨fun k => if k = DOWNTIME_REPLICAS_KEY then some "oops" else none⟩

/-- A namespace object with no annotations. -/
def nsEmptyObj : NamespaceObj := ⟨emptyAnn⟩

/-- A namespace object whose force-uptime annotation is the string
"false". -/
def nsForceFalse : NamespaceObj :=
  ⟨fun k => if k = FORCE_UPTIME_KEY then some "false" else none⟩

/-- Two-resource pass input: the first resource has a garbage
resource-level downtime-replicas annotation, both namespaces are clean. -/
def twoItemPass : List (KubeResource × NamespaceObj) :=
  [(rBadReplicasAnn, nsEmptyObj), (rCronOrigOne, nsEmptyObj)]

/-! ### Helper lemmas shared by the claim theorems -/

/-- The scaler.py line 215 subterm `original_status == False` is false for
every value the original-status annotation can hold. -/
theorem py_eq_false_eq_false (x : Option String) : py_eq_false x = false := by
  cases x <;> rfl

/-- With a truthy forced-uptime flag, `autoscale_resource` resolves to
uptime mode and its downscale branch is unreachable. -/
theorem autoscale_forced_no_downscale (mts : String → Bool)
    (r : KubeResource) (up down ut dt : String) (forced : PyBS)
    (now grace dtr : Int) (nsx : Bool) (h : forced.truthy = true) :
    (autoscale_resource mts r up down ut dt forced now grace dtr
      nsx).action ≠ Action.downscale := by
  unfold autoscale_resource
  split
  · simp
  · simp only [h, Bool.true_or, resolve_mode, if_true]
    split
    · simp
    · split
      · split
        · simp
        · split
          · simp
          · simp
      · simp

/-- With a truthy forced-uptime flag, `auto_suspend_cronjob` resolves to
uptime mode and its downscale branch is unreachable. -/
theorem cron_forced_no_downscale (mts : String → Bool)
    (r : KubeResource) (up down ut dt : String) (forced : PyBS)
    (now grace : Int) (nsx : Bool) (h : forced.truthy = true) :
    (auto_suspend_cronjob mts r up down ut dt forced now grace
      nsx).action ≠ Action.downscale := by
  unfold auto_suspend_cronjob
  simp only [h, Bool.true_or, resolve_mode, if_true]
  split
  · simp
  · split
    · simp
    · split
      · simp_all
      · simp

/-- When the mode is not forced, the effective periods are in use and both
match `now`, `autoscale_resource` ignores the resource: no state change,
no update. -/
theorem autoscale_overlap_noop (mts : String → Bool) (r : KubeResource)
    (up down ut dt : String) (forced : PyBS) (now grace dtr : Int)
    (nsx : Bool)
    (hforced : (forced.truthy || ((nsx || ignore_resource r) &&
      strTruthy (annGet r.annotations ORIGINAL_CRON_SUSPEND_KEY))) = false)
    (hperiod : ((annGetD r.annotations UPSCALE_PERIOD_KEY up != "never") ||
      (annGetD r.annotations DOWNSCALE_PERIOD_KEY down != "never")) = true)
    (hup : mts (annGetD r.annotations UPSCALE_PERIOD_KEY up) = true)
    (hdown : mts (annGetD r.annotations DOWNSCALE_PERIOD_KEY down) = true) :
    (autoscale_resource mts r up down ut dt forced now grace dtr
      nsx).resource = r ∧
    (autoscale_resource mts r up down ut dt forced now grace dtr
      nsx).updateNeeded = false ∧
    (autoscale_resource mts r up down ut dt forced now grace dtr
      nsx).action = Action.noop := by
  have hm : resolve_mode mts
      (forced.truthy || ((nsx || ignore_resource r) &&
        strTruthy (annGet r.annotations ORIGINAL_CRON_SUSPEND_KEY)))
      (annGetD r.annotations UPSCALE_PERIOD_KEY up)
      (annGetD r.annotations DOWNSCALE_PERIOD_KEY down)
      (annGetD r.annotations UPTIME_KEY ut)
      (annGetD r.annotations DOWNTIME_KEY dt) = (true, false) := by
    unfold resolve_mode
    rw [hforced]
    simp [hperiod, hup, hdown]
  unfold autoscale_resource
  split
  · exact ⟨rfl, rfl, rfl⟩
  · simp only [hm]
    split
    · exact ⟨rfl, rfl, rfl⟩
    · simp

/-- When the mode is not forced, the effective periods are in use and both
match `now`, `auto_suspend_cronjob` ignores the resource: no state change,
no update. -/
theorem cron_overlap_noop (mts : String → Bool) (r : KubeResource)
    (up down ut dt : String) (forced : PyBS) (now grace : Int)
    (nsx : Bool)
    (hforced : (forced.truthy || ((nsx || ignore_resource r) &&
      strTruthy (annGet r.annotations ORIGINAL_CRON_SUSPEND_KEY))) = false)
    (hperiod : ((annGetD r.annotations UPSCALE_PERIOD_KEY up != "never") ||
      (annGetD r.annotations DOWNSCALE_PERIOD_KEY down != "never")) = true)
    (hup : mts (annGetD r.annotations UPSCALE_PERIOD_KEY up) = true)
    (hdown : mts (annGetD r.annotations DOWNSCALE_PERIOD_KEY down) = true) :
    (auto_suspend_cronjob mts r up down ut dt forced now grace
      nsx).resource = r ∧
    (auto_suspend_cronjob mts r up down ut dt forced now grace
      nsx).updateNeeded = false ∧
    (auto_suspend_cronjob mts r up down ut dt forced now grace
      nsx).action = Action.noop := by
  have hm : resolve_mode mts
      (forced.truthy || ((nsx || ignore_resource r) &&
        strTruthy (annGet r.annotations ORIGINAL_CRON_SUSPEND_KEY)))
      (annGetD r.annotations UPSCALE_PERIOD_KEY up)
      (annGetD r.annotations DOWNSCALE_PERIOD_KEY down)
      (annGetD r.annotations UPTIME_KEY ut)
      (annGetD r.annotations DOWNTIME_KEY dt) = (true, false) := by
    unfold resolve_mode
    rw [hforced]
    simp [hperiod, hup, hdown]
  unfold auto_suspend_cronjob
  simp only [hm]
  split
  · exact ⟨rfl, rfl, rfl⟩
  · simp

/-- A caught per-resource exception (`failed = true`) leaves the resource
untouched and requests no update: every raising point in
`autoscale_resource` precedes any mutation. -/
theorem autoscale_failed_frame (mts : String → Bool) (r : KubeResource)
    (up down ut dt : String) (forced : PyBS) (now grace dtr : Int)
    (nsx : Bool) :
    (autoscale_resource mts r up down ut dt forced now grace dtr
      nsx).failed = true →
    (autoscale_resource mts r up down ut dt forced now grace dtr
      nsx).updateNeeded = false ∧
    (autoscale_resource mts r up down ut dt forced now grace dtr
      nsx).resource = r := by
  unfold autoscale_resource
  repeat' (first | split | intro h)
  all_goals try simp_all
  all_goals repeat' (first | split at h | split | intro h)
  all_goals simp_all

/-! ### Claim theorems -/

/-- C1: the claim says that a replica-based resource sitting at the
downtime target with a positive original-replicas annotation, in uptime
mode, is restored to the recorded value.  The code instead reads the
original-cron-status key (scaler.py line 64), so on exactly the claimed
state — original-replicas "5" present, replicas 0 = downtime target,
uptime resolved, not excluded — it performs no restore and leaves the
resource untouched. -/
theorem C1_restore_skipped_despite_original_replicas :
    annGet rRestoreDue.annotations ORIGINAL_REPLICAS_KEY = some "5" ∧
    rRestoreDue.replicas = 0 ∧
    ignore_resource rRestoreDue = false ∧
    (autoscale_resource mtsUp rRestoreDue "never" "never" "always" "never"
      (.b false) 1000000 900 0 false) =
      ⟨rRestoreDue, false, false, Action.noop⟩ :=
  ⟨rfl, rfl, rfl, rfl⟩

/-- C2: the claim says a second run on the state produced by a first run
performs no mutation and no commit.  On a resource whose
original-cron-status annotation is "1", at 1 replica with downtime target
1, in uptime mode, the first run takes the restore branch (it clears the
original-replicas key, not the original-cron-status key that triggered
it), so the second run takes the restore branch again and commits again. -/
theorem C2_second_pass_commits_again :
    (autoscale_resource mtsUp rCronOrigOne "never" "never" "always" "never"
        (.b false) 1000000 900 1 false).action = Action.restore ∧
    ((autoscale_resource mtsUp rCronOrigOne "never" "never" "always" "never"
        (.b false) 1000000 900 1 false).committed false) = true ∧
    ((autoscale_resource mtsUp
        (autoscale_resource mtsUp rCronOrigOne "never" "never" "always"
          "never" (.b false) 1000000 900 1 false).resource
        "never" "never" "always" "never" (.b false) 1000000 900 1
        false).committed false) = true := by
  decide

/-- C4: the claim says the downscale transition records the current value
(the current suspend flag, for cron jobs) into the original-value
annotation.  On an unsuspended cron job in downtime mode past its grace
period, the code takes the downscale branch and suspends the job, but
scaler.py line 231 stores `original_status` (here `None`) instead of the
current flag, so the original-status annotation stays absent. -/
theorem C4_cron_downscale_records_nothing :
    (auto_suspend_cronjob mtsUp rPlainCron "never" "never" "never" "always"
        (.b false) 1000000 900 false).action = Action.downscale ∧
    (auto_suspend_cronjob mtsUp rPlainCron "never" "never" "never" "always"
        (.b false) 1000000 900 false).resource.suspend = PyBS.b true ∧
    annGet (auto_suspend_cronjob mtsUp rPlainCron "never" "never" "never"
        "always" (.b false) 1000000 900 false).resource.annotations
      ORIGINAL_CRON_SUSPEND_KEY = none := by
  decide

/-- C7: the claim says an excluded resource with no original-replicas
annotation is never mutated.  An excluded deployment that carries an
original-cron-status annotation (but no original-replicas annotation) is
nevertheless mutated: scaler.py line 64 reads the cron-status key, so the
forced-restore path fires and scales the deployment to 5. -/
theorem C7_excluded_resource_still_mutated :
    ignore_resource rExcludedCronOrig = true ∧
    annGet rExcludedCronOrig.annotations ORIGINAL_REPLICAS_KEY = none ∧
    (autoscale_resource mtsUp rExcludedCronOrig "never" "never" "never"
        "never" (.b false) 1000000 900 0 false).action = Action.restore ∧
    (autoscale_resource mtsUp rExcludedCronOrig "never" "never" "never"
        "never" (.b false) 1000000 900 0 false).updateNeeded = true ∧
    (autoscale_resource mtsUp rExcludedCronOrig "never" "never" "never"
        "never" (.b false) 1000000 900 0 false).resource.replicas = 5 := by
  decide

/-- C5 counterexample: a non-integer value in the namespace-level
downtime-replicas annotation raises inside the `autoscale_resources` loop
body, outside any try/except (scaler.py line 162), so the whole pass
aborts and the second (perfectly healthy) resource is never processed —
against the claim that no per-resource failure aborts the pass. -/
theorem C5_namespace_failure_aborts_pass :
    (autoscale_resources mtsUp
        [(plainDeployment, nsBadObj), (rCronOrigOne, nsEmptyObj)] [] []
        "never" "never" "always" "never" false 1000000 900 1).aborted
      = true ∧
    (autoscale_resources mtsUp
        [(plainDeployment, nsBadObj), (rCronOrigOne, nsEmptyObj)] [] []
        "never" "never" "always" "never" false 1000000 900 1).processed
      = [] :=
  ⟨rfl, rfl⟩

/-- C5 (amended): when every namespace-level downtime-replicas annotation
in the pass parses, the pass never aborts, every non-filtered resource is
processed, and any resource whose evaluation raised (and was caught at
scaler.py line 126, e.g. a non-integer resource-level replica-count
annotation) is skipped without any mutation request. -/
theorem C5_engine_failures_do_not_abort_pass (mts : String → Bool)
    (items : List (KubeResource × NamespaceObj))
    (exns exnames : List String) (up down ut dt : String) (fu : Bool)
    (now grace dtr : Int)
    (hns : ∀ p ∈ items,
      (int_or_default (annGet p.2.annotations DOWNTIME_REPLICAS_KEY)
        dtr).isSome = true) :
    (autoscale_resources mts items exns exnames up down ut dt fu now grace
      dtr).aborted = false ∧
    (autoscale_resources mts items exns exnames up down ut dt fu now grace
      dtr).processed.length =
      (items.filter (fun p => !(exns.contains p.1.namesp ||
        exnames.contains p.1.name))).length ∧
    ∀ sr ∈ (autoscale_resources mts items exns exnames up down ut dt fu now
      grace dtr).processed,
      sr.failed = true → sr.updateNeeded = false := by
  induction items with
  | nil => simp [autoscale_resources]
  | cons hd tl ih =>
    obtain ⟨r, nsObj⟩ := hd
    have hhd := hns _ (List.mem_cons_self _ _)
    have htl := ih (fun p hp => hns p (List.mem_cons_of_mem _ hp))
    by_cases hskip :
        (exns.contains r.namesp || exnames.contains r.name) = true
    · simp only [autoscale_resources]
      rw [if_pos hskip]
      refine ⟨htl.1, ?_, htl.2.2⟩
      rw [List.filter_cons]
      simp only [hskip, Bool.not_true]
      simpa using htl.2.1
    · have hc : (exns.contains r.namesp || exnames.contains r.name)
          = false := by simpa using hskip
      cases hm : int_or_default (annGet nsObj.annotations
          DOWNTIME_REPLICAS_KEY) dtr with
      | none => rw [hm] at hhd; simp at hhd
      | some d =>
        simp only [autoscale_resources]
        rw [if_neg hskip]
        simp only [hm]
        refine ⟨htl.1, ?_, ?_⟩
        · rw [List.filter_cons]
          simp only [hc, Bool.not_false]
          simpa using htl.2.1
        · intro sr hsr
          rcases List.mem_cons.mp hsr with rfl | hsr2
          · exact fun hf =>
              (autoscale_failed_frame mts r _ _ _ _ _ now grace d _ hf).1
          · exact htl.2.2 sr hsr2

/-- C5 witness: a two-resource pass whose first resource has a
non-integer resource-level downtime-replicas annotation (its evaluation
raises and is caught) and clean namespaces: the pass does not abort and
both resources are processed. -/
theorem C5_witness :
    (∀ p ∈ twoItemPass,
      (int_or_default (annGet p.2.annotations DOWNTIME_REPLICAS_KEY)
        (1 : Int)).isSome = true) ∧
    (autoscale_resources mtsUp twoItemPass [] [] "never" "never" "always"
      "never" false 1000000 900 1).aborted = false ∧
    (autoscale_resources mtsUp twoItemPass [] [] "never" "never" "always"
      "never" false 1000000 900 1).processed.length = 2 :=
  ⟨by decide,
   (C5_engine_failures_do_not_abort_pass mtsUp twoItemPass [] [] "never"
     "never" "always" "never" false 1000000 900 1 (by decide)).1,
   ((C5_engine_failures_do_not_abort_pass mtsUp twoItemPass [] [] "never"
     "never" "always" "never" false 1000000 900 1 (by decide)).2.1).trans
     (by decide)⟩

/-- C3: the claim says the cron restore (unsuspend) mutation is performed
exactly when the suspend flag equals the downtime value, an
original-status annotation is present and records the not-suspended
state, and in particular fires for some input.  The code can never take
that branch: scaler.py line 215 requires `original_status` to be truthy
AND equal to the boolean `False`, which no annotation value (a string or
`None`) satisfies, so the restore action is dead code for every input. -/
theorem C3_cron_restore_never_fires (mts : String → Bool)
    (r : KubeResource) (up down ut dt : String) (forced : PyBS)
    (now grace : Int) (nsx : Bool) :
    (auto_suspend_cronjob mts r up down ut dt forced now grace
      nsx).action ≠ Action.restore := by
  unfold auto_suspend_cronjob
  simp only [py_eq_false_eq_false, Bool.and_false, Bool.false_eq_true,
    if_false]
  split
  · simp
  · split
    · split
      · simp
      · simp
    · simp

/-- C6: a configuration in period-based mode (some effective period is not
"never") whose effective upscale and downscale periods both match `now`
produces no mutation of any kind, in the replica-based and the
suspend-based variant — provided the mode is not forced to uptime (forced
uptime or exclusion with a recorded original value takes precedence over
the period branch). -/
theorem C6_overlap_produces_no_mutation :
    (∀ (mts : String → Bool) (r : KubeResource) (up down ut dt : String)
      (forced : PyBS) (now grace dtr : Int) (nsx : Bool),
      (forced.truthy || ((nsx || ignore_resource r) &&
        strTruthy (annGet r.annotations ORIGINAL_CRON_SUSPEND_KEY)))
          = false →
      ((annGetD r.annotations UPSCALE_PERIOD_KEY up != "never") ||
        (annGetD r.annotations DOWNSCALE_PERIOD_KEY down != "never"))
          = true →
      mts (annGetD r.annotations UPSCALE_PERIOD_KEY up) = true →
      mts (annGetD r.annotations DOWNSCALE_PERIOD_KEY down) = true →
      (autoscale_resource mts r up down ut dt forced now grace dtr
        nsx).resource = r ∧
      (autoscale_resource mts r up down ut dt forced now grace dtr
        nsx).updateNeeded = false ∧
      (autoscale_resource mts r up down ut dt forced now grace dtr
        nsx).action = Action.noop) ∧
    (∀ (mts : String → Bool) (r : KubeResource) (up down ut dt : String)
      (forced : PyBS) (now grace : Int) (nsx : Bool),
      (forced.truthy || ((nsx || ignore_resource r) &&
        strTruthy (annGet r.annotations ORIGINAL_CRON_SUSPEND_KEY)))
          = false →
      ((annGetD r.annotations UPSCALE_PERIOD_KEY up != "never") ||
        (annGetD r.annotations DOWNSCALE_PERIOD_KEY down != "never"))
          = true →
      mts (annGetD r.annotations UPSCALE_PERIOD_KEY up) = true →
      mts (annGetD r.annotations DOWNSCALE_PERIOD_KEY down) = true →
      (auto_suspend_cronjob mts r up down ut dt forced now grace
        nsx).resource = r ∧
      (auto_suspend_cronjob mts r up down ut dt forced now grace
        nsx).updateNeeded = false ∧
      (auto_suspend_cronjob mts r up down ut dt forced now grace
        nsx).action = Action.noop) :=
  ⟨fun mts r up down ut dt forced now grace dtr nsx h1 h2 h3 h4 =>
    autoscale_overlap_noop mts r up down ut dt forced now grace dtr nsx
      h1 h2 h3 h4,
   fun mts r up down ut dt forced now grace nsx h1 h2 h3 h4 =>
    cron_overlap_noop mts r up down ut dt forced now grace nsx
      h1 h2 h3 h4⟩

/-- C6 witness: both effective periods are "always" and the matcher
matches "always", so both windows cover `now`; neither the deployment nor
the cron job is touched. -/
theorem C6_witness :
    ((autoscale_resource mtsUp plainDeployment "always" "always" "always"
      "never" (.b false) 1000000 900 0 false).updateNeeded = false ∧
     (autoscale_resource mtsUp plainDeployment "always" "always" "always"
      "never" (.b false) 1000000 900 0 false).action = Action.noop) ∧
    ((auto_suspend_cronjob mtsUp rPlainCron "always" "always" "always"
      "never" (.b false) 1000000 900 false).updateNeeded = false ∧
     (auto_suspend_cronjob mtsUp rPlainCron "always" "always" "always"
      "never" (.b false) 1000000 900 false).action = Action.noop) :=
  ⟨⟨(C6_overlap_produces_no_mutation.1 mtsUp plainDeployment "always"
      "always" "always" "never" (.b false) 1000000 900 0 false (by decide)
      (by decide) (by decide) (by decide)).2.1,
    (C6_overlap_produces_no_mutation.1 mtsUp plainDeployment "always"
      "always" "always" "never" (.b false) 1000000 900 0 false (by decide)
      (by decide) (by decide) (by decide)).2.2⟩,
   ⟨(C6_overlap_produces_no_mutation.2 mtsUp rPlainCron "always" "always"
      "always" "never" (.b false) 1000000 900 false (by decide)
      (by decide) (by decide) (by decide)).2.1,
    (C6_overlap_produces_no_mutation.2 mtsUp rPlainCron "always" "always"
      "always" "never" (.b false) 1000000 900 false (by decide)
      (by decide) (by decide) (by decide)).2.2⟩⟩

/-- C8: whenever the forced-uptime flag is truthy, neither decision
function can take its downscale (suspend) branch, whatever the schedule,
the downtime windows, or the resource state. -/
theorem C8_forced_uptime_never_downscales :
    (∀ (mts : String → Bool) (r : KubeResource) (up down ut dt : String)
      (forced : PyBS) (now grace dtr : Int) (nsx : Bool),
      forced.truthy = true →
      (autoscale_resource mts r up down ut dt forced now grace dtr
        nsx).action ≠ Action.downscale) ∧
    (∀ (mts : String → Bool) (r : KubeResource) (up down ut dt : String)
      (forced : PyBS) (now grace : Int) (nsx : Bool),
      forced.truthy = true →
      (auto_suspend_cronjob mts r up down ut dt forced now grace
        nsx).action ≠ Action.downscale) :=
  ⟨autoscale_forced_no_downscale, cron_forced_no_downscale⟩

/-- C8 witness: the downtime spec "always" matches `now`, yet with the
forced-uptime flag set neither function downscales. -/
theorem C8_witness :
    (PyBS.b true).truthy = true ∧
    (autoscale_resource mtsUp plainDeployment "never" "never" "never"
      "always" (.b true) 1000000 900 0 false).action ≠ Action.downscale ∧
    (auto_suspend_cronjob mtsUp rPlainCron "never" "never" "never"
      "always" (.b true) 1000000 900 false).action ≠ Action.downscale :=
  ⟨rfl,
   C8_forced_uptime_never_downscales.1 mtsUp plainDeployment "never"
     "never" "never" "always" (.b true) 1000000 900 0 false rfl,
   C8_forced_uptime_never_downscales.2 mtsUp rPlainCron "never" "never"
     "never" "always" (.b true) 1000000 900 false rfl⟩

/-- C9: `pods_force_uptime` returns true exactly when some pod in the list
is in a non-terminal phase (neither Succeeded nor Failed) and carries the
force-uptime marker whose lower-cased value is "true"; the function is a
pure read-only scan. -/
theorem C9_pods_force_uptime_iff (pods : List Pod) :
    pods_force_uptime pods = true ↔
      ∃ p ∈ pods, ¬(p.phase = some "Succeeded" ∨ p.phase = some "Failed") ∧
        py_lower (annGetD p.annotations FORCE_UPTIME_KEY "") = "true" := by
  induction pods with
  | nil => simp [pods_force_uptime]
  | cons p rest ih =>
    simp only [pods_force_uptime]
    by_cases hterm :
        (p.phase == some "Succeeded" || p.phase == some "Failed") = true
    · rw [if_pos hterm, ih]
      have hterm2 : p.phase = some "Succeeded" ∨ p.phase = some "Failed" := by
        simpa using hterm
      constructor
      · rintro ⟨q, hq, hc⟩
        exact ⟨q, List.mem_cons_of_mem _ hq, hc⟩
      · rintro ⟨q, hq, hc⟩
        rcases List.mem_cons.mp hq with rfl | hq2
        · exact absurd hterm2 hc.1
        · exact ⟨q, hq2, hc⟩
    · rw [if_neg hterm]
      have hterm2 : ¬(p.phase = some "Succeeded" ∨ p.phase = some "Failed")
          := by simpa using hterm
      by_cases hmark :
          (py_lower (annGetD p.annotations FORCE_UPTIME_KEY "") == "true")
            = true
      · rw [if_pos hmark]
        constructor
        · intro _
          exact ⟨p, List.mem_cons_self _ _, hterm2, by simpa using hmark⟩
        · intro _
          rfl
      · rw [if_neg hmark, ih]
        constructor
        · rintro ⟨q, hq, hc⟩
          exact ⟨q, List.mem_cons_of_mem _ hq, hc⟩
        · rintro ⟨q, hq, hc⟩
          rcases List.mem_cons.mp hq with rfl | hq2
          · exact absurd hc.2 (by simpa using hmark)
          · exact ⟨q, hq2, hc⟩

/-- C10: when a namespace object carries the force-uptime annotation, the
driver loops pass its raw string value through as the forced-uptime flag —
no comparison against "true" or "false" happens at the namespace level —
and any non-empty value (including "false") is truthy, putting every
resource of the namespace in forced-uptime mode, under which neither
decision function can downscale. -/
theorem C10_namespace_force_uptime_verbatim (nsObj : NamespaceObj)
    (fu : Bool) (v : String)
    (h : annGet nsObj.annotations FORCE_UPTIME_KEY = some v) :
    forced_uptime_for_namespace nsObj fu = PyBS.s v ∧
    (v ≠ "" →
      (PyBS.s v).truthy = true ∧
      (∀ (mts : String → Bool) (r : KubeResource) (up down ut dt : String)
        (now grace dtr : Int) (nsx : Bool),
        (autoscale_resource mts r up down ut dt (PyBS.s v) now grace dtr
          nsx).action ≠ Action.downscale) ∧
      (∀ (mts : String → Bool) (r : KubeResource) (up down ut dt : String)
        (now grace : Int) (nsx : Bool),
        (auto_suspend_cronjob mts r up down ut dt (PyBS.s v) now grace
          nsx).action ≠ Action.downscale)) := by
  have h1 : forced_uptime_for_namespace nsObj fu = PyBS.s v := by
    unfold forced_uptime_for_namespace
    rw [h]
  refine ⟨h1, fun hv => ?_⟩
  have ht : (PyBS.s v).truthy = true := by
    simp only [PyBS.truthy, bne_iff_ne, ne_eq]
    exact hv
  exact ⟨ht,
    fun mts r up down ut dt now grace dtr nsx =>
      autoscale_forced_no_downscale mts r up down ut dt _ now grace dtr nsx
        ht,
    fun mts r up down ut dt now grace nsx =>
      cron_forced_no_downscale mts r up down ut dt _ now grace nsx ht⟩

/-- C10 witness: a namespace annotated with force-uptime "false" yields
the flag `PyBS.s "false"`, which is truthy, and a resource in that
namespace is never downscaled even with its downtime spec matching. -/
theorem C10_witness :
    forced_uptime_for_namespace nsForceFalse false = PyBS.s "false" ∧
    (PyBS.s "false").truthy = true ∧
    (autoscale_resource mtsUp plainDeployment "never" "never" "never"
      "always" (PyBS.s "false") 1000000 900 0 false).action ≠
      Action.downscale :=
  ⟨(C10_namespace_force_uptime_verbatim nsForceFalse false "false" rfl).1,
   ((C10_namespace_force_uptime_verbatim nsForceFalse false "false"
     rfl).2 (by decide)).1,
   ((C10_namespace_force_uptime_verbatim nsForceFalse false "false"
     rfl).2 (by decide)).2.1 mtsUp plainDeployment "never" "never" "never"
     "always" 1000000 900 0 false⟩

end KubeDownscaler
